import Mathlib

/-!
# Verification of the photo-editor core

Shallow embedding of the region-selection / mask-generation subsystem and the
image request/response pipeline of the repository
(`src/services/geminiService.ts`, `src/App.tsx`, `src/components/ImageCard.tsx`,
`src/utils/fileUtils.ts`), together with proofs of the specified properties.

Coordinates are modelled as rationals, strings as Lean `String`s, promises and
the remote service as explicit `Except` results, and React state-setter
sequences as pure state-transition functions.
-/

namespace EditorDeFotos

/-! ## Data model -/

/-- A normalized selection rectangle, percentages of the image dimensions
(`interface Selection` in `App.tsx` / `ImageCard.tsx`). -/
structure Selection where
  x : ℚ
  y : ℚ
  width : ℚ
  height : ℚ
deriving Repr, DecidableEq

/-- A stored uploaded image (`interface OriginalImage` in `App.tsx`). -/
structure OriginalImage where
  url : String
  base64 : String
  mimeType : String
deriving Repr, DecidableEq

/-- One content unit sent to / received from the remote service: either
`{ inlineData: { data, mimeType } }` or `{ text }`. -/
inductive Part
  | inline (data mimeType : String)
  | text (s : String)
deriving Repr, DecidableEq

/-! ## JS string primitives

The JS string methods the source uses, modelled structurally over the
character list of the string (Lean's own `String.trim`/`String.splitOn` use
well-founded recursion, which the kernel cannot evaluate). -/

/-- JS `String.prototype.split` with a one-character separator: every
occurrence of the separator starts a new segment; an empty string yields one
empty segment. -/
def jsSplitList (sep : Char) : List Char → List (List Char)
  | [] => [[]]
  | c :: rest =>
    match jsSplitList sep rest with
    | [] => if c = sep then [[], []] else [[c]]
    | g :: gs => if c = sep then [] :: g :: gs else (c :: g) :: gs

/-- JS `s.split(sep)` for a one-character separator. -/
def jsSplit (sep : Char) (s : String) : List String :=
  (jsSplitList sep s.toList).map fun g => String.mk g

/-- JS `String.prototype.trim`: strip leading and trailing whitespace. -/
def jsTrim (s : String) : String :=
  String.mk
    (((s.toList.dropWhile Char.isWhitespace).reverse.dropWhile
        Char.isWhitespace).reverse)

/-- JS `String.prototype.startsWith`. -/
def jsStartsWith (s pat : String) : Bool :=
  pat.toList.isPrefixOf s.toList

/-! ## `src/utils/fileUtils.ts` and the shared mime regex -/

/-- The JS regex `/:(.*?);/` applied to a string: the characters strictly
between the first `:` and the first `;` after it, when such a `;` exists
(lazy group, leftmost match). Used by `fileToBase64` and by
`handleInpaintRequest` on the stored data URL. -/
def mimeMatch (s : String) : Option String :=
  match s.toList.dropWhile (fun c => c ≠ ':') with
  | [] => none
  | _ :: rest =>
    if rest.contains ';' then some (String.mk (rest.takeWhile (fun c => c ≠ ';')))
    else none

def splitFailMsg : String := "Invalid file format. Could not split data URL."

def mimeFailMsg : String := "Could not determine MIME type of the file."

/-- `fileToBase64` from `src/utils/fileUtils.ts`, with the `FileReader` result
(the data-URL string produced by `readAsDataURL`) and the file's declared MIME
type passed explicitly.  `const [header, base64] = result.split(',')` keeps the
first two comma-separated segments; a missing or empty segment is falsy. -/
def fileToBase64 (readerResult : String) (fileType : String) :
    Except String (String × String) :=
  let segments := jsSplit ',' readerResult
  let header := segments.headD ""
  let base64 := (segments[1]?).getD ""
  if header = "" ∨ base64 = "" then Except.error splitFailMsg
  else
    let mimeType := (mimeMatch header).getD fileType
    if mimeType = "" then Except.error mimeFailMsg
    else Except.ok (base64, mimeType)

/-! ## `src/services/geminiService.ts` -/

def noImageMsg : String :=
  "Nenhuma imagem foi gerada na resposta. O prompt pode ter sido bloqueado ou ser inválido."

def promptFailMsg : String :=
  "Falha ao editar a imagem. A solicitação pode ter sido bloqueada devido a políticas de segurança. Tente um prompt ou imagem diferente."

def selectionFailMsg : String :=
  "Falha ao editar a área selecionada. A solicitação pode ter sido bloqueada. Tente um prompt ou imagem diferente."

def canvasCtxFailMsg : String :=
  "Não foi possível obter o contexto do canvas para criar a máscara."

/-- The `contentParts` array built by `editImageWithPrompt` (lines 23–41):
primary image, then the reference image when present, then the prompt text. -/
def buildPromptParts (base64ImageData mimeType prompt : String)
    (referenceImage : Option (String × String)) : List Part :=
  let parts := [Part.inline base64ImageData mimeType]
  let parts :=
    match referenceImage with
    | some r => parts ++ [Part.inline r.1 r.2]
    | none => parts
  parts ++ [Part.text prompt]

/-- The `parts` array built by `editImageWithSelection` (lines 122–126):
base image, mask (always tagged `image/png`), prompt text. -/
def buildSelectionParts (base64ImageData mimeType prompt maskBase64 : String) :
    List Part :=
  [Part.inline base64ImageData mimeType,
   Part.inline maskBase64 "image/png",
   Part.text prompt]

/-- The response-scanning loop (lines 55–59 / 133–137): the `inlineData.data`
of the first part that has `inlineData`, if any. -/
def firstInlineData : List Part → Option String
  | [] => none
  | Part.inline d _ :: _ => some d
  | Part.text _ :: rest => firstInlineData rest

/-- `editImageWithPrompt`.  `service` abstracts the awaited
`ai.models.generateContent` call: it receives the outbound parts and yields the
parts of the first response candidate (the chain
`response.candidates?.[0]?.content?.parts || []`) or a transport error.  The
whole body runs inside `try { ... } catch { throw new Error(promptFailMsg) }`,
so every error raised inside — including the no-image error thrown after the
scan — is replaced by `promptFailMsg`. -/
def editImageWithPrompt (base64ImageData mimeType prompt : String)
    (referenceImage : Option (String × String))
    (service : List Part → Except String (List Part)) : Except String String :=
  let tryBody : Except String String :=
    match service (buildPromptParts base64ImageData mimeType prompt referenceImage) with
    | Except.error e => Except.error e
    | Except.ok parts =>
      match firstInlineData parts with
      | some d => Except.ok d
      | none => Except.error noImageMsg
  match tryBody with
  | Except.ok d => Except.ok d
  | Except.error _ => Except.error promptFailMsg

/-- A canvas pixel tone: a fresh canvas is transparent (`clear`); `fillRect`
with `fillStyle = 'black' / 'white'` paints `black` / `white`. -/
inductive Tone
  | clear
  | black
  | white
deriving Repr, DecidableEq

/-- Membership of the integer pixel `(px, py)` in `fillRect(x, y, w, h)`:
the rectangle covers `[x, x+w) × [y, y+h)` in canvas coordinates. -/
def inFillRect (x y w h : ℚ) (px py : ℕ) : Prop :=
  x ≤ px ∧ (px : ℚ) < x + w ∧ y ≤ py ∧ (py : ℚ) < y + h

instance (x y w h : ℚ) (px py : ℕ) : Decidable (inFillRect x y w h px py) := by
  unfold inFillRect; infer_instance

/-- `ctx.fillRect(x, y, w, h)` with tone `t` over an existing canvas. -/
def paintRect (x y w h : ℚ) (t : Tone) (base : ℕ → ℕ → Tone) : ℕ → ℕ → Tone :=
  fun px py => if inFillRect x y w h px py then t else base px py

/-- A freshly created canvas, before any fill. -/
def emptyCanvas : ℕ → ℕ → Tone := fun _ _ => Tone.clear

/-- The mask canvas built by `editImageWithSelection` (lines 95–114): fill the
whole `canvas.width × canvas.height` raster black, then fill the rectangle
`(selection.x/100·w, selection.y/100·h, selection.width/100·w,
selection.height/100·h)` white. -/
def maskCanvas (selection : Selection) (canvasWidth canvasHeight : ℕ) :
    ℕ → ℕ → Tone :=
  let afterBlack :=
    paintRect 0 0 canvasWidth canvasHeight Tone.black emptyCanvas
  let maskX := selection.x / 100 * canvasWidth
  let maskY := selection.y / 100 * canvasHeight
  let maskWidth := selection.width / 100 * canvasWidth
  let maskHeight := selection.height / 100 * canvasHeight
  paintRect maskX maskY maskWidth maskHeight Tone.white afterBlack

/-- Environment for `editImageWithSelection`: the browser `Image` load
(yielding the base image's pixel dimensions, or failing), canvas 2d-context
availability, the PNG encoding `canvas.toDataURL('image/png').split(',')[1]`
of the finished mask, and the remote service. -/
structure SelectionEnv where
  imageDims : Option (ℕ × ℕ)
  ctxAvailable : Bool
  encodeMask : (ℕ → ℕ → Tone) → ℕ → ℕ → String
  service : List Part → Except String (List Part)

/-- `editImageWithSelection`: load the base image, rasterize the mask, send
base + mask + prompt, scan the response; the surrounding `try/catch` replaces
any error with `selectionFailMsg`. -/
def editImageWithSelection (base64ImageData mimeType prompt : String)
    (selection : Selection) (env : SelectionEnv) : Except String String :=
  let tryBody : Except String String :=
    match env.imageDims with
    | none => Except.error "image load failed"
    | some wh =>
      if env.ctxAvailable then
        let mask := maskCanvas selection wh.1 wh.2
        let maskBase64 := env.encodeMask mask wh.1 wh.2
        match env.service (buildSelectionParts base64ImageData mimeType prompt maskBase64) with
        | Except.error e => Except.error e
        | Except.ok parts =>
          match firstInlineData parts with
          | some d => Except.ok d
          | none => Except.error noImageMsg
      else Except.error canvasCtxFailMsg
  match tryBody with
  | Except.ok d => Except.ok d
  | Except.error _ => Except.error selectionFailMsg

/-! ## `src/components/ImageCard.tsx` — the interactive region selector -/

/-- `containerRef.current.getBoundingClientRect()`. -/
structure DOMRect where
  left : ℚ
  top : ℚ
  width : ℚ
  height : ℚ
deriving Repr, DecidableEq

/-- `getRelativeCoords` (lines 47–54): pointer position converted to
percentages of the surface, each axis clamped to `[0, 100]` via
`Math.max(0, Math.min(100, ((clientX - rect.left) / rect.width) * 100))`. -/
def getRelativeCoords (rect : DOMRect) (clientX clientY : ℚ) : ℚ × ℚ :=
  (max 0 (min 100 ((clientX - rect.left) / rect.width * 100)),
   max 0 (min 100 ((clientY - rect.top) / rect.height * 100)))

/-- `handleMouseDown` (lines 56–65) with selection mode active: record the
anchor (`setStartPos`) and emit the zero-size region anchored there. -/
def handleMouseDown (rect : DOMRect) (clientX clientY : ℚ) :
    (ℚ × ℚ) × Selection :=
  let coords := getRelativeCoords rect clientX clientY
  (coords, { x := coords.1, y := coords.2, width := 0, height := 0 })

/-- `handleMouseMove` (lines 67–78) while drawing: min/abs normalization of the
anchor and the freshly converted pointer position. -/
def handleMouseMove (startPos : ℚ × ℚ) (rect : DOMRect) (clientX clientY : ℚ) :
    Selection :=
  let currentCoords := getRelativeCoords rect clientX clientY
  { x := min startPos.1 currentCoords.1
    y := min startPos.2 currentCoords.2
    width := |startPos.1 - currentCoords.1|
    height := |startPos.2 - currentCoords.2| }

/-- The regions a drag gesture produces: the mouse-down region followed by one
region per mouse-move, all against the anchor recorded at mouse-down. -/
def dragRegions (rect : DOMRect) (downX downY : ℚ) (moves : List (ℚ × ℚ)) :
    List Selection :=
  (handleMouseDown rect downX downY).2 ::
    moves.map fun m =>
      handleMouseMove (handleMouseDown rect downX downY).1 rect m.1 m.2

/-! ## `src/App.tsx` — the interaction state controller -/

/-- The `useState` slots of the `App` component. -/
structure AppState where
  originalImage : Option OriginalImage
  referenceImage : Option OriginalImage
  editedImage : Option String
  prompt : String
  inpaintPrompt : String
  isLoading : Bool
  error : Option String
  isSelecting : Bool
  selection : Option Selection
deriving Repr, DecidableEq

def invalidFileTypeMsg : String := "Tipo de arquivo inválido. Por favor, envie uma imagem."

def uploadFailMsg : String := "Não foi possível processar o arquivo enviado."

def needImageAndPromptMsg : String :=
  "Por favor, envie uma imagem e insira uma instrução de edição."

def needSelectionMsg : String :=
  "Por favor, selecione uma área e insira uma instrução para editar."

def editedParseFailMsg : String :=
  "Não foi possível processar a imagem editada existente."

/-- The user-selected file as the controller sees it: its declared MIME type
and the object URL `URL.createObjectURL(file)` would produce for it. -/
structure UploadedFile where
  type : String
  objectUrl : String
deriving Repr, DecidableEq

/-- `handleImageUpload` (lines 36–61): no file → no-op; non-`image/*` type →
error only; otherwise clear error, edited image, selection mode and region,
then store the decoded image (or the decode-failure error).
`fileToBase64Result` is the settled promise of `fileToBase64(file)`. -/
def handleImageUpload (s : AppState) (file : Option UploadedFile)
    (fileToBase64Result : Except Unit (String × String)) : AppState :=
  match file with
  | none => s
  | some f =>
    if jsStartsWith f.type "image/" then
      let s1 : AppState :=
        { s with error := none, editedImage := none,
                 isSelecting := false, selection := none }
      match fileToBase64Result with
      | Except.ok bm =>
        let img : OriginalImage :=
          { url := f.objectUrl, base64 := bm.1, mimeType := bm.2 }
        { s1 with originalImage := some img }
      | Except.error _ => { s1 with error := some uploadFailMsg }
    else { s with error := some invalidFileTypeMsg }

/-- The argument tuple of a dispatched `editImageWithPrompt` call. -/
structure PromptCall where
  base64 : String
  mimeType : String
  prompt : String
  referenceImage : Option (String × String)
deriving Repr, DecidableEq

/-- `handleEditRequest` (lines 85–114): guard on a present original image and a
non-empty trimmed prompt; set loading, clear error / edited image / selection
state; dispatch `editImageWithPrompt`; store the result under a hard-coded
`data:image/png;base64,` prefix or store the error message; clear loading.
The second component records the dispatched call, `none` when the handler
returned without reaching the pipeline.  `serviceResult` is the settled
promise of the dispatched call. -/
def handleEditRequest (s : AppState) (serviceResult : Except String String) :
    AppState × Option PromptCall :=
  match s.originalImage with
  | none => ({ s with error := some needImageAndPromptMsg }, none)
  | some originalImage =>
    if jsTrim s.prompt = "" then
      ({ s with error := some needImageAndPromptMsg }, none)
    else
      let finalPrompt := jsTrim s.prompt
      let s1 : AppState :=
        { s with isLoading := true, error := none, editedImage := none,
                 isSelecting := false, selection := none }
      let call : PromptCall :=
        { base64 := originalImage.base64, mimeType := originalImage.mimeType,
          prompt := finalPrompt,
          referenceImage := s.referenceImage.map fun r => (r.base64, r.mimeType) }
      match serviceResult with
      | Except.ok newImageBase64 =>
        ({ s1 with
            editedImage := some ("data:image/png;base64," ++ newImageBase64),
            isLoading := false }, some call)
      | Except.error msg =>
        ({ s1 with error := some msg, isLoading := false }, some call)

/-- The argument tuple of a dispatched `editImageWithSelection` call. -/
structure SelectionCall where
  base64 : String
  mimeType : String
  prompt : String
  selection : Selection
deriving Repr, DecidableEq

/-- `handleInpaintRequest` (lines 116–153): guard on a present edited image, a
present (possibly degenerate) selection and a non-empty trimmed inpaint
prompt; set loading; split the stored data URL and match its MIME type; on
parse failure store an error and stop; otherwise dispatch
`editImageWithSelection` with the stored region, store the result under the
hard-coded `data:image/png;base64,` prefix and clear the selection state on
success, or store the error message; clear loading. -/
def handleInpaintRequest (s : AppState) (serviceResult : Except String String) :
    AppState × Option SelectionCall :=
  match s.editedImage, s.selection with
  | some editedImage, some selection =>
    if jsTrim s.inpaintPrompt = "" then
      ({ s with error := some needSelectionMsg }, none)
    else
      let s1 : AppState := { s with isLoading := true, error := none }
      let segments := jsSplit ',' editedImage
      let header := segments.headD ""
      let base64 := (segments[1]?).getD ""
      match (if base64 = "" then none else mimeMatch header) with
      | none =>
        ({ s1 with error := some editedParseFailMsg, isLoading := false }, none)
      | some mimeType =>
        let call : SelectionCall :=
          { base64 := base64, mimeType := mimeType,
            prompt := s.inpaintPrompt, selection := selection }
        match serviceResult with
        | Except.ok newImageBase64 =>
          ({ s1 with
              editedImage := some ("data:image/png;base64," ++ newImageBase64),
              isSelecting := false, selection := none, inpaintPrompt := "",
              isLoading := false }, some call)
        | Except.error msg =>
          ({ s1 with error := some msg, isLoading := false }, some call)
  | _, _ => ({ s with error := some needSelectionMsg }, none)

/-! ### View-level guards (`App.tsx` / `ImageCard.tsx` render conditions) -/

/-- The `disabled` condition of the whole-image "Gerar" button
(`App.tsx` line 252): `isLoading || !originalImage || !prompt`. -/
def editButtonDisabled (s : AppState) : Bool :=
  s.isLoading || s.originalImage.isNone || s.prompt = ""

/-- Whether the inpaint panel (prompt box + its "Gerar" button) is rendered on
the edited-image card (`ImageCard.tsx` lines 41 and 136): the card shows
actions (`imageUrl && !isLoading`) and
`isSelecting && selection && selection.width > 0 && selection.height > 0`. -/
def inpaintPanelVisible (s : AppState) : Bool :=
  (s.editedImage.isSome && !s.isLoading) &&
    (s.isSelecting &&
      match s.selection with
      | some selection =>
        decide (0 < selection.width) && decide (0 < selection.height)
      | none => false)

/-- The `disabled` condition of the inpaint "Gerar" button
(`ImageCard.tsx` line 150): `isLoading || !inpaintPrompt?.trim()`. -/
def inpaintGenerateDisabled (s : AppState) : Bool :=
  s.isLoading || jsTrim s.inpaintPrompt = ""

/-! ## Definitions taken from the specification's wording, for comparison -/

namespace Spec

/-- Clamping of one percentage axis to `[0, 100]`, as the spec words it. -/
def clampPercent (v : ℚ) : ℚ := max 0 (min 100 v)

/-- Pointer-to-percentage conversion, as the spec words it: convert each axis
relative to the surface bounds and clamp to `[0, 100]`. -/
def toPercent (rect : DOMRect) (clientX clientY : ℚ) : ℚ × ℚ :=
  (clampPercent ((clientX - rect.left) / rect.width * 100),
   clampPercent ((clientY - rect.top) / rect.height * 100))

/-- `updateDrag`, as the spec words it: convert the current pointer position,
then take `x = min(anchor.x, current.x)`, `y = min(anchor.y, current.y)`,
`width = |anchor.x − current.x|`, `height = |anchor.y − current.y|`. -/
def updateDrag (anchor : ℚ × ℚ) (rect : DOMRect) (clientX clientY : ℚ) :
    Selection :=
  let current := toPercent rect clientX clientY
  { x := min anchor.1 current.1
    y := min anchor.2 current.2
    width := |anchor.1 - current.1|
    height := |anchor.2 - current.2| }

/-- The pixel-space sub-rectangle of the spec's rasterization algorithm:
each normalized coordinate scaled by the corresponding pixel dimension
(`maskX = x/100·pixelWidth`, etc.). -/
def inScaledRect (region : Selection) (pixelWidth pixelHeight : ℕ)
    (px py : ℕ) : Prop :=
  region.x / 100 * pixelWidth ≤ px ∧
  (px : ℚ) < region.x / 100 * pixelWidth + region.width / 100 * pixelWidth ∧
  region.y / 100 * pixelHeight ≤ py ∧
  (py : ℚ) < region.y / 100 * pixelHeight + region.height / 100 * pixelHeight

end Spec

/-- The format-tag derivation order asserted by claim C9: the resource's
declared MIME type first, the parsed data-URL header only as a fallback. -/
def claimFormatTag (header fileType : String) : String :=
  if fileType ≠ "" then fileType else (mimeMatch header).getD ""

/-! ## Concrete sample states -/

/-- A controller state holding an edited image and a stored degenerate
(width = 0, height = 0) region, with a non-empty inpaint prompt. -/
def degenerateSelectionState : AppState :=
  { originalImage := none
    referenceImage := none
    editedImage := some "data:image/png;base64,QUJD"
    prompt := ""
    inpaintPrompt := "remova os fios"
    isLoading := false
    error := none
    isSelecting := true
    selection := some (Selection.mk 10 10 0 0) }

/-- Like `degenerateSelectionState` but with a non-degenerate stored region,
so the inpaint panel is rendered. -/
def visiblePanelState : AppState :=
  { originalImage := none
    referenceImage := none
    editedImage := some "data:image/png;base64,QUJD"
    prompt := ""
    inpaintPrompt := "remova os fios"
    isLoading := false
    error := none
    isSelecting := true
    selection := some (Selection.mk 10 10 30 40) }

/-- A controller state with an edit operation already in flight
(`isLoading = true`) and everything a new whole-image submission needs. -/
def inFlightState : AppState :=
  { originalImage := some (OriginalImage.mk "blob:1" "QUJD" "image/png")
    referenceImage := none
    editedImage := none
    prompt := "remova o fundo"
    inpaintPrompt := ""
    isLoading := true
    error := none
    isSelecting := false
    selection := none }

/-- A controller state holding an existing edited-image result, active
selection mode and a stored region, about to receive a new upload. -/
def priorResultState : AppState :=
  { originalImage := some (OriginalImage.mk "blob:0" "QUJD" "image/jpeg")
    referenceImage := none
    editedImage := some "data:image/png;base64,RUZH"
    prompt := "limpar fundo"
    inpaintPrompt := "ajustar"
    isLoading := false
    error := some "erro antigo"
    isSelecting := true
    selection := some (Selection.mk 1 2 3 4) }

/-- An idle controller state ready for a whole-image submission. -/
def readyState : AppState :=
  { originalImage := some (OriginalImage.mk "blob:2" "UVdF" "image/jpeg")
    referenceImage := none
    editedImage := none
    prompt := "clarear a foto"
    inpaintPrompt := ""
    isLoading := false
    error := none
    isSelecting := false
    selection := none }

/-- An idle controller state ready for a region (inpaint) submission. -/
def inpaintReadyState : AppState :=
  { originalImage := none
    referenceImage := none
    editedImage := some "data:image/jpeg;base64,QUJD"
    prompt := ""
    inpaintPrompt := "remover sombra"
    isLoading := false
    error := none
    isSelecting := true
    selection := some (Selection.mk 5 5 20 20) }

/-- A PNG file as the upload handler sees it. -/
def samplePngFile : UploadedFile := UploadedFile.mk "image/png" "blob:9"

/-- A sample drag surface. -/
def sampleRect : DOMRect := DOMRect.mk 0 0 200 100

/-- The region produced by dragging from client point `(10, 20)` to client
point `(500, −50)` over `sampleRect` (an up-right drag leaving the surface). -/
def sampleDragRegion : Selection :=
  handleMouseMove (handleMouseDown sampleRect 10 20).1 sampleRect 500 (-50)

/-! ## Helper lemmas -/

lemma getRelativeCoords_bounds (rect : DOMRect) (clientX clientY : ℚ) :
    0 ≤ (getRelativeCoords rect clientX clientY).1 ∧
    (getRelativeCoords rect clientX clientY).1 ≤ 100 ∧
    0 ≤ (getRelativeCoords rect clientX clientY).2 ∧
    (getRelativeCoords rect clientX clientY).2 ≤ 100 := by
  unfold getRelativeCoords
  exact ⟨le_max_left _ _, max_le (by norm_num) (min_le_left _ _),
    le_max_left _ _, max_le (by norm_num) (min_le_left _ _)⟩

lemma min_add_abs_le (a c : ℚ) (ha : a ≤ 100) (hc : c ≤ 100) :
    min a c + |a - c| ≤ 100 := by
  rcases le_total a c with h | h
  · rw [min_eq_left h, abs_of_nonpos (by linarith)]; linarith
  · rw [min_eq_right h, abs_of_nonneg (by linarith)]; linarith

lemma maskCanvas_eq (r : Selection) (pw ph qx qy : ℕ) :
    maskCanvas r pw ph qx qy =
      if inFillRect (r.x / 100 * pw) (r.y / 100 * ph)
          (r.width / 100 * pw) (r.height / 100 * ph) qx qy then Tone.white
      else if inFillRect 0 0 pw ph qx qy then Tone.black
      else Tone.clear := rfl

lemma fileToBase64_eq (readerResult fileType : String) :
    fileToBase64 readerResult fileType =
      if (jsSplit ',' readerResult).headD "" = "" ∨
          ((jsSplit ',' readerResult)[1]?).getD "" = "" then
        Except.error splitFailMsg
      else if (mimeMatch ((jsSplit ',' readerResult).headD "")).getD fileType
          = "" then
        Except.error mimeFailMsg
      else
        Except.ok (((jsSplit ',' readerResult)[1]?).getD "",
          (mimeMatch ((jsSplit ',' readerResult).headD "")).getD fileType) :=
  rfl

/-! ## Theorems, one per claim -/

/-- C1: at the failing input — the service succeeds but its response contains
zero image-typed content units — `editImageWithPrompt` does not surface the
distinct no-image error: the `catch` wrapping the whole body replaces it with
`promptFailMsg`, the very same error a transport failure produces, so the two
failure modes are indistinguishable to the caller even though the code builds
a distinct `noImageMsg` for this case. -/
theorem c1_noImage_error_swallowed :
    editImageWithPrompt "QUJD" "image/png" "remova o fundo" none
        (fun _ => Except.ok [Part.text "pedido recusado"]) =
      Except.error promptFailMsg ∧
    editImageWithPrompt "QUJD" "image/png" "remova o fundo" none
        (fun _ => Except.error "network down") = Except.error promptFailMsg ∧
    noImageMsg ≠ promptFailMsg := by
  refine ⟨rfl, rfl, ?_⟩
  decide

/-- C3 counterexample: in `inFlightState` an edit operation is in flight
(`isLoading = true`), yet invoking `handleEditRequest` dispatches a second
remote call — the handler performs no in-flight check. -/
theorem c3_counterexample :
    inFlightState.isLoading = true ∧
    (handleEditRequest inFlightState (Except.ok "RUZH")).2 =
      some (PromptCall.mk "QUJD" "image/png" "remova o fundo" none) := by
  refine ⟨rfl, ?_⟩
  decide

/-- C3 amended: the rejection of a second submission while one is in flight is
enforced by the view, not inside the handlers: whenever `isLoading` is set,
both the whole-image "Gerar" button and the inpaint "Gerar" button are
disabled, so no second submission can be initiated from the rendered UI. -/
theorem c3_inflight_guard_is_view_level (s : AppState)
    (h : s.isLoading = true) :
    editButtonDisabled s = true ∧ inpaintGenerateDisabled s = true := by
  simp [editButtonDisabled, inpaintGenerateDisabled, h]

/-- Witness for C3's amended claim at `inFlightState`. -/
theorem c3_inflight_guard_is_view_level_witness :
    editButtonDisabled inFlightState = true ∧
    inpaintGenerateDisabled inFlightState = true :=
  c3_inflight_guard_is_view_level inFlightState rfl

/-- C5: `handleMouseMove` computes exactly the spec's `updateDrag` formula —
clamped per-axis conversion of the pointer position, then min/abs rectangle
normalization against the anchor — and `getRelativeCoords` is exactly the
spec's clamped percentage conversion. -/
theorem c5_updateDrag_formula (anchor : ℚ × ℚ) (rect : DOMRect)
    (clientX clientY : ℚ) :
    handleMouseMove anchor rect clientX clientY =
      Spec.updateDrag anchor rect clientX clientY ∧
    getRelativeCoords rect clientX clientY =
      Spec.toPercent rect clientX clientY :=
  ⟨rfl, rfl⟩

/-- C7: the outbound content sequence of `editImageWithPrompt` is primary
image, then the reference image exactly when one is supplied, then the prompt
text; the outbound sequence of `editImageWithSelection` is base image, mask,
prompt text, with no reference image.  The last three conjuncts check the
sequences actually handed to the remote service by the two pipeline entry
points, using a service that accepts only the expected sequence. -/
theorem c7_content_sequence_order (b m p rb rm base mimeType maskBase64 :
    String) (w h : ℕ) (sel : Selection) :
    buildPromptParts b m p (some (rb, rm)) =
      [Part.inline b m, Part.inline rb rm, Part.text p] ∧
    buildPromptParts b m p none = [Part.inline b m, Part.text p] ∧
    buildSelectionParts base mimeType p maskBase64 =
      [Part.inline base mimeType, Part.inline maskBase64 "image/png",
       Part.text p] ∧
    editImageWithPrompt b m p (some (rb, rm)) (fun parts =>
        if parts = [Part.inline b m, Part.inline rb rm, Part.text p] then
          Except.ok [Part.inline "OK" "image/png"]
        else Except.error "unexpected parts") = Except.ok "OK" ∧
    editImageWithPrompt b m p none (fun parts =>
        if parts = [Part.inline b m, Part.text p] then
          Except.ok [Part.inline "OK" "image/png"]
        else Except.error "unexpected parts") = Except.ok "OK" ∧
    editImageWithSelection base mimeType p sel
      { imageDims := some (w, h)
        ctxAvailable := true
        encodeMask := fun _ _ _ => maskBase64
        service := fun parts =>
          if parts = [Part.inline base mimeType,
              Part.inline maskBase64 "image/png", Part.text p] then
            Except.ok [Part.inline "OK" "image/png"]
          else Except.error "unexpected parts" } = Except.ok "OK" := by
  refine ⟨rfl, rfl, rfl, ?_, ?_, ?_⟩ <;>
    simp [editImageWithPrompt, editImageWithSelection, buildPromptParts,
      buildSelectionParts, firstInlineData]

/-- C8: a successful primary-image upload (valid `image/*` type, decode
succeeds) clears the edited-image state, disables selection mode and clears
the stored region — for every prior controller state — while storing the new
original image. -/
theorem c8_upload_resets_edit_state (s : AppState) (f : UploadedFile)
    (base64 mimeType : String) (hType : jsStartsWith f.type "image/" = true) :
    handleImageUpload s (some f) (Except.ok (base64, mimeType)) =
      { s with error := none, editedImage := none, isSelecting := false,
               selection := none,
               originalImage :=
                 some (OriginalImage.mk f.objectUrl base64 mimeType) } := by
  simp [handleImageUpload, hType]

/-- Witness for C8 at a state that holds an edited result, active selection
mode and a stored region. -/
theorem c8_upload_resets_edit_state_witness :
    handleImageUpload priorResultState (some samplePngFile)
        (Except.ok ("TkVX", "image/png")) =
      { priorResultState with error := none
                              editedImage := none
                              isSelecting := false
                              selection := none
                              originalImage :=
                                some (OriginalImage.mk "blob:9" "TkVX" "image/png") } :=
  c8_upload_resets_edit_state priorResultState samplePngFile "TkVX" "image/png"
    (by decide)

/-- C2 counterexample: `degenerateSelectionState` stores a degenerate region
(width = 0), yet `handleInpaintRequest` dispatches `editImageWithSelection`
with exactly that region — the handler checks only that a region is stored,
not that it is non-degenerate. -/
theorem c2_counterexample :
    degenerateSelectionState.selection = some (Selection.mk 10 10 0 0) ∧
    (Selection.mk 10 10 0 0).width = 0 ∧
    (handleInpaintRequest degenerateSelectionState (Except.ok "RUZH")).2 =
      some (SelectionCall.mk "QUJD" "image/png" "remova os fios"
        (Selection.mk 10 10 0 0)) := by
  refine ⟨rfl, rfl, ?_⟩
  decide

/-- C2 amended: the inpaint handler rejects only a missing region (or missing
edited image / blank prompt): any dispatch carries exactly the stored region,
degenerate or not.  The degeneracy guard sits in the view instead: the inpaint
submit panel is rendered only when the stored region has width > 0 and
height > 0, so a degenerate region cannot be submitted through the UI. -/
theorem c2_degenerate_guard_is_view_level (s : AppState) :
    (inpaintPanelVisible s = true →
      ∃ selection, s.selection = some selection ∧
        0 < selection.width ∧ 0 < selection.height) ∧
    (∀ svcResult call, (handleInpaintRequest s svcResult).2 = some call →
      s.selection = some call.selection) := by
  constructor
  · intro h
    unfold inpaintPanelVisible at h
    rcases hsel : s.selection with _ | selection
    · rw [hsel] at h
      simp at h
    · rw [hsel] at h
      simp only [Bool.and_eq_true, decide_eq_true_eq] at h
      exact ⟨selection, rfl, h.2.2.1, h.2.2.2⟩
  · intro svcResult call h
    obtain ⟨oi, ri, ei, pr, ip, il, er, isel, sel⟩ := s
    rcases ei with _ | editedImage
    · rcases sel with _ | selection <;>
        (unfold handleInpaintRequest at h; dsimp only at h;
         exact Option.noConfusion h)
    · rcases sel with _ | selection
      · unfold handleInpaintRequest at h
        dsimp only at h
        exact Option.noConfusion h
      · unfold handleInpaintRequest at h
        dsimp only at h
        by_cases hp : jsTrim ip = ""
        · rw [if_pos hp] at h
          dsimp only at h
          exact Option.noConfusion h
        · rw [if_neg hp] at h
          rcases hm : (if ((jsSplit ',' editedImage)[1]?).getD "" = "" then none
              else mimeMatch ((jsSplit ',' editedImage).headD ""))
            with _ | mimeType <;> rw [hm] at h <;> dsimp only at h
          · exact Option.noConfusion h
          · rcases svcResult with msg | newImageBase64 <;> dsimp only at h <;>
              rw [Option.some.injEq] at h <;> subst h <;> rfl

/-- Witness for C2's amended claim: the panel-visibility guard applied at
`visiblePanelState`, and the dispatch/stored-region correspondence applied at
`degenerateSelectionState`. -/
theorem c2_degenerate_guard_is_view_level_witness :
    (∃ selection, visiblePanelState.selection = some selection ∧
      0 < selection.width ∧ 0 < selection.height) ∧
    degenerateSelectionState.selection =
      some (SelectionCall.mk "QUJD" "image/png" "remova os fios"
        (Selection.mk 10 10 0 0)).selection :=
  ⟨(c2_degenerate_guard_is_view_level visiblePanelState).1 (by decide),
   (c2_degenerate_guard_is_view_level degenerateSelectionState).2
     (Except.ok "RUZH")
     (SelectionCall.mk "QUJD" "image/png" "remova os fios"
       (Selection.mk 10 10 0 0))
     (by decide)⟩

/-- C4: along any drag gesture — a mouse-down anywhere followed by any
sequence of mouse-moves, in any direction, over a non-degenerate surface —
every region the selector produces has non-negative width and height and
satisfies `x + width ≤ 100` and `y + height ≤ 100`. -/
theorem c4_drag_region_invariant (rect : DOMRect) (downX downY : ℚ)
    (moves : List (ℚ × ℚ)) (hw : 0 < rect.width) (hh : 0 < rect.height) :
    ∀ region ∈ dragRegions rect downX downY moves,
      0 ≤ region.width ∧ 0 ≤ region.height ∧
      region.x + region.width ≤ 100 ∧ region.y + region.height ≤ 100 := by
  intro region hmem
  have hb := getRelativeCoords_bounds rect downX downY
  unfold dragRegions at hmem
  rcases List.mem_cons.mp hmem with rfl | hmem'
  · refine ⟨le_refl 0, le_refl 0, ?_, ?_⟩
    · simpa [handleMouseDown] using hb.2.1
    · simpa [handleMouseDown] using hb.2.2.2
  · obtain ⟨m, hm, rfl⟩ := List.mem_map.mp hmem'
    have hc := getRelativeCoords_bounds rect m.1 m.2
    refine ⟨abs_nonneg _, abs_nonneg _, ?_, ?_⟩
    · exact min_add_abs_le _ _ hb.2.1 hc.2.1
    · exact min_add_abs_le _ _ hb.2.2.2 hc.2.2.2

/-- Witness for C4: an up-right drag from `(10, 20)` to `(500, −50)` that
leaves the surface on both axes. -/
theorem c4_drag_region_invariant_witness :
    0 ≤ sampleDragRegion.width ∧ 0 ≤ sampleDragRegion.height ∧
    sampleDragRegion.x + sampleDragRegion.width ≤ 100 ∧
    sampleDragRegion.y + sampleDragRegion.height ≤ 100 :=
  c4_drag_region_invariant sampleRect 10 20 [(500, -50)]
    (by norm_num [sampleRect]) (by norm_num [sampleRect]) sampleDragRegion
    (by simp [dragRegions, sampleDragRegion])

/-- C6: within the raster bounds, the mask pixel is white exactly on the
spec's scaled sub-rectangle and no pixel is left unpainted (everything else is
black); and for region `{x:25, y:25, width:50, height:50}` on a `100×100`
raster the white pixels are exactly rows/cols `[25, 75)`. -/
theorem c6_mask_rasterization (region : Selection)
    (pixelWidth pixelHeight px py : ℕ)
    (hx : px < pixelWidth) (hy : py < pixelHeight) :
    (maskCanvas region pixelWidth pixelHeight px py = Tone.white ↔
      Spec.inScaledRect region pixelWidth pixelHeight px py) ∧
    maskCanvas region pixelWidth pixelHeight px py ≠ Tone.clear ∧
    (∀ qx qy : ℕ,
      maskCanvas (Selection.mk 25 25 50 50) 100 100 qx qy = Tone.white ↔
        (25 ≤ qx ∧ qx < 75 ∧ 25 ≤ qy ∧ qy < 75)) := by
  refine ⟨?_, ?_, ?_⟩
  · rw [maskCanvas_eq]
    by_cases h : inFillRect (region.x / 100 * pixelWidth)
        (region.y / 100 * pixelHeight) (region.width / 100 * pixelWidth)
        (region.height / 100 * pixelHeight) px py
    · rw [if_pos h]
      exact iff_of_true rfl h
    · rw [if_neg h]
      refine iff_of_false ?_ (fun hs => h hs)
      intro hw
      split at hw <;> simp at hw
  · rw [maskCanvas_eq]
    have hbase : inFillRect 0 0 pixelWidth pixelHeight px py := by
      refine ⟨Nat.cast_nonneg px, ?_, Nat.cast_nonneg py, ?_⟩
      · rw [zero_add]; exact_mod_cast hx
      · rw [zero_add]; exact_mod_cast hy
    by_cases h : inFillRect (region.x / 100 * pixelWidth)
        (region.y / 100 * pixelHeight) (region.width / 100 * pixelWidth)
        (region.height / 100 * pixelHeight) px py
    · rw [if_pos h]
      simp
    · rw [if_neg h, if_pos hbase]
      simp
  · intro qx qy
    rw [maskCanvas_eq]
    have hiff : inFillRect ((Selection.mk (25:ℚ) 25 50 50).x / 100 * (100:ℕ))
        ((Selection.mk (25:ℚ) 25 50 50).y / 100 * (100:ℕ))
        ((Selection.mk (25:ℚ) 25 50 50).width / 100 * (100:ℕ))
        ((Selection.mk (25:ℚ) 25 50 50).height / 100 * (100:ℕ)) qx qy ↔
        (25 ≤ qx ∧ qx < 75 ∧ 25 ≤ qy ∧ qy < 75) := by
      unfold inFillRect
      norm_num
    by_cases h : 25 ≤ qx ∧ qx < 75 ∧ 25 ≤ qy ∧ qy < 75
    · rw [if_pos (hiff.mpr h)]
      exact iff_of_true rfl h
    · rw [if_neg (fun hc => h (hiff.mp hc))]
      refine iff_of_false ?_ h
      intro hw
      split at hw <;> simp at hw

/-- Witness for C6 at pixel `(30, 40)` of the 100×100 raster. -/
theorem c6_mask_rasterization_witness :
    (maskCanvas (Selection.mk 25 25 50 50) 100 100 30 40 = Tone.white ↔
      Spec.inScaledRect (Selection.mk 25 25 50 50) 100 100 30 40) ∧
    maskCanvas (Selection.mk 25 25 50 50) 100 100 30 40 ≠ Tone.clear ∧
    (maskCanvas (Selection.mk 25 25 50 50) 100 100 30 40 = Tone.white ↔
      (25 ≤ 30 ∧ 30 < 75 ∧ 25 ≤ 40 ∧ 40 < 75)) := by
  have h := c6_mask_rasterization (Selection.mk 25 25 50 50) 100 100 30 40
    (by norm_num) (by norm_num)
  exact ⟨h.1, h.2.1, h.2.2 30 40⟩

/-- C9 counterexample: for the read result `"data:image/png;base64,QUJD"` of a
resource whose declared MIME type is `"image/jpeg"`, `fileToBase64` resolves
with the header-parsed tag `"image/png"`; the claim's derivation order
(declared MIME type first, header only as fallback) yields `"image/jpeg"`
instead. -/
theorem c9_counterexample :
    fileToBase64 "data:image/png;base64,QUJD" "image/jpeg" =
      Except.ok ("QUJD", "image/png") ∧
    claimFormatTag "data:image/png;base64" "image/jpeg" = "image/jpeg" ∧
    ("image/png" : String) ≠ "image/jpeg" := by
  refine ⟨rfl, rfl, ?_⟩
  decide

/-- C9 amended: `fileToBase64` derives the format tag by parsing the data-URL
header first, falling back to the declared MIME type only when the header does
not match `:…;`.  It rejects with the split error exactly when the first
comma-separated segment (the header) or the second (the payload) is missing
or empty; it rejects with the MIME error exactly when the segments are fine
but the derived tag is empty; otherwise it resolves with the payload segment
and the derived tag. -/
theorem c9_decode_characterization (readerResult fileType : String) :
    (fileToBase64 readerResult fileType = Except.error splitFailMsg ↔
      (jsSplit ',' readerResult).headD "" = "" ∨
      ((jsSplit ',' readerResult)[1]?).getD "" = "") ∧
    (fileToBase64 readerResult fileType = Except.error mimeFailMsg ↔
      ((jsSplit ',' readerResult).headD "" ≠ "" ∧
       ((jsSplit ',' readerResult)[1]?).getD "" ≠ "" ∧
       (mimeMatch ((jsSplit ',' readerResult).headD "")).getD fileType = "")) ∧
    (∀ payload tag,
      fileToBase64 readerResult fileType = Except.ok (payload, tag) ↔
        ((jsSplit ',' readerResult).headD "" ≠ "" ∧
         payload = ((jsSplit ',' readerResult)[1]?).getD "" ∧ payload ≠ "" ∧
         tag = (mimeMatch ((jsSplit ',' readerResult).headD "")).getD fileType ∧
         tag ≠ "")) := by
  have hne : splitFailMsg ≠ mimeFailMsg := by decide
  rw [fileToBase64_eq]
  by_cases h1 : (jsSplit ',' readerResult).headD "" = "" ∨
      ((jsSplit ',' readerResult)[1]?).getD "" = ""
  · rw [if_pos h1]
    refine ⟨iff_of_true rfl h1, ?_, ?_⟩
    · refine iff_of_false ?_ ?_
      · intro hc
        exact hne (Except.error.inj hc)
      · rintro ⟨hA, hB, -⟩
        rcases h1 with h | h
        · exact hA h
        · exact hB h
    · intro payload tag
      refine iff_of_false (fun hc => by cases hc) ?_
      rintro ⟨hA, hpay, hpayne, -, -⟩
      rcases h1 with h | h
      · exact hA h
      · exact hpayne (hpay.trans h)
  · rw [if_neg h1]
    push_neg at h1
    by_cases h2 : (mimeMatch ((jsSplit ',' readerResult).headD "")).getD
        fileType = ""
    · rw [if_pos h2]
      refine ⟨?_, iff_of_true rfl ⟨h1.1, h1.2, h2⟩, ?_⟩
      · refine iff_of_false ?_ ?_
        · intro hc
          exact hne (Except.error.inj hc).symm
        · rintro (h | h)
          · exact h1.1 h
          · exact h1.2 h
      · intro payload tag
        refine iff_of_false (fun hc => by cases hc) ?_
        rintro ⟨-, -, -, htag, htagne⟩
        exact htagne (htag.trans h2)
    · rw [if_neg h2]
      refine ⟨?_, ?_, ?_⟩
      · refine iff_of_false (fun hc => by cases hc) ?_
        rintro (h | h)
        · exact h1.1 h
        · exact h1.2 h
      · refine iff_of_false (fun hc => by cases hc) ?_
        rintro ⟨-, -, hc⟩
        exact h2 hc
      · intro payload tag
        constructor
        · intro hc
          have hpair := Except.ok.inj hc
          have hp : ((jsSplit ',' readerResult)[1]?).getD "" = payload :=
            congrArg Prod.fst hpair
          have ht : (mimeMatch ((jsSplit ',' readerResult).headD "")).getD
              fileType = tag := congrArg Prod.snd hpair
          exact ⟨h1.1, hp.symm, hp ▸ h1.2, ht.symm, ht ▸ h2⟩
        · rintro ⟨-, hp, -, ht, -⟩
          rw [hp, ht]

/-- C10: the pipeline returns only the payload of the response's image unit —
its declared format tag is discarded — and the controller stores every
successful result (whole-image or region path) under the hard-coded
`data:image/png;base64,` prefix, so the displayed edited image is labeled
`image/png` whatever format the service declared. -/
theorem c10_result_tagged_png (data tag : String) :
    (∀ b m p r, editImageWithPrompt b m p r
        (fun _ => Except.ok [Part.inline data tag]) = Except.ok data) ∧
    (∀ s call, (handleEditRequest s (Except.ok data)).2 = some call →
      (handleEditRequest s (Except.ok data)).1.editedImage =
        some ("data:image/png;base64," ++ data)) ∧
    (∀ s call, (handleInpaintRequest s (Except.ok data)).2 = some call →
      (handleInpaintRequest s (Except.ok data)).1.editedImage =
        some ("data:image/png;base64," ++ data)) := by
  refine ⟨fun b m p r => rfl, ?_, ?_⟩
  · intro s call h
    obtain ⟨oi, ri, ei, pr, ip, il, er, isel, sel⟩ := s
    rcases oi with _ | originalImage
    · unfold handleEditRequest at h
      dsimp only at h
      exact Option.noConfusion h
    · unfold handleEditRequest at h ⊢
      dsimp only at h ⊢
      by_cases hp : jsTrim pr = ""
      · rw [if_pos hp] at h
        dsimp only at h
        exact Option.noConfusion h
      · rw [if_neg hp]
  · intro s call h
    obtain ⟨oi, ri, ei, pr, ip, il, er, isel, sel⟩ := s
    rcases ei with _ | editedImage
    · rcases sel with _ | selection <;>
        (unfold handleInpaintRequest at h; dsimp only at h;
         exact Option.noConfusion h)
    · rcases sel with _ | selection
      · unfold handleInpaintRequest at h
        dsimp only at h
        exact Option.noConfusion h
      · unfold handleInpaintRequest at h ⊢
        dsimp only at h ⊢
        by_cases hp : jsTrim ip = ""
        · rw [if_pos hp] at h
          dsimp only at h
          exact Option.noConfusion h
        · rw [if_neg hp] at h ⊢
          rcases hm : (if ((jsSplit ',' editedImage)[1]?).getD "" = "" then none
              else mimeMatch ((jsSplit ',' editedImage).headD ""))
            with _ | mimeType <;> rw [hm] at h <;> dsimp only at h ⊢
          exact Option.noConfusion h

/-- Witness for C10: a response image unit tagged `image/webp` still comes
back as its bare payload and is stored tagged `image/png` on both paths. -/
theorem c10_result_tagged_png_witness :
    editImageWithPrompt "UVdF" "image/jpeg" "clarear a foto" none
        (fun _ => Except.ok [Part.inline "RUZH" "image/webp"]) =
      Except.ok "RUZH" ∧
    (handleEditRequest readyState (Except.ok "RUZH")).1.editedImage =
      some ("data:image/png;base64," ++ "RUZH") ∧
    (handleInpaintRequest inpaintReadyState (Except.ok "RUZH")).1.editedImage =
      some ("data:image/png;base64," ++ "RUZH") := by
  have h := c10_result_tagged_png "RUZH" "image/webp"
  exact ⟨h.1 "UVdF" "image/jpeg" "clarear a foto" none,
    h.2.1 readyState
      (PromptCall.mk "UVdF" "image/jpeg" (jsTrim "clarear a foto") none)
      (by decide),
    h.2.2 inpaintReadyState
      (SelectionCall.mk "QUJD" "image/jpeg" "remover sombra"
        (Selection.mk 5 5 20 20))
      (by decide)⟩

end EditorDeFotos
